import Mathlib

/-!
Shallow embedding of the csv-importer-backend service (Go).

Source files embedded here:
* `cmd/csv-importer/model` — `Event`, `EventStatus`, `BaseResponse`,
  `EventCreateRequest` (part_005, part_003 tail).
* `cmd/csv-importer/apis` — `createEvent`, `listEvents` (part_002) and
  `healthCheck` (apis/healthcheck, concatenated in repository/event_test.go).
* `cmd/csv-importer/repository` — `EventRepo.ListEvents` / `CreateEvent`
  seen as operations on a relational store with a primary key on `events.id`
  (event.go, schema part_007).
* The CSV decoding path `gocsv.Unmarshal` over Go's `encoding/csv` reader
  with default options (comma separator, no lazy quotes, field count fixed
  by the first record), embedded as an executable character-level machine.

Machine integers do not occur on any embedded path; timestamps are opaque
`Nat` values produced by a time oracle (two successive `time.Now()` calls
are the two oracle values `now1`, `now2`).
-/

namespace CsvImporter

/-! ## Data model (package model) -/

/-- Status enum: `type EventStatus string` in the source. -/
abbrev EventStatus := String

/-- Source: `Created EventStatus = "draft"`. -/
def Created : EventStatus := "draft"

/-- Source: `Start EventStatus = "start"`. -/
def Start : EventStatus := "start"

/-- Source: `End EventStatus = "end"` (named `EndStatus` here). -/
def EndStatus : EventStatus := "end"

/-- The `Event` entity (model package): id, name, status, create/update
timestamps and an optional soft-delete timestamp. Timestamps are opaque
`Nat` values. -/
structure Event where
  id : String
  name : String
  status : EventStatus
  createDate : Nat
  updateDate : Nat
  deleteDate : Option Nat
  deriving Repr, DecidableEq

/-- Modelled from the spec: the `TodoCSV` struct of the model package is not
among the provided sources (only its tests and the handler reference it).
Per the spec it is the transient parse target with "two free-text fields,
`todo_name` and `note`, populated per row from the uploaded file"; the model
tests bind `TodoName` to csv column `todo_name` and `Note` to `note`. -/
structure TodoCSV where
  todoName : String
  note : String
  deriving Repr, DecidableEq

/-- The payload slot of `BaseResponse` has Go type `any`; the service only
ever stores nothing, one `Event`, or a list of `Event`s there. -/
inductive RespData where
  | noData
  | event (e : Event)
  | events (es : List Event)
  deriving Repr, DecidableEq

/-- The uniform envelope `BaseResponse` with fields `Data any` and `Message string`. -/
structure BaseResponse where
  data : RespData
  message : String
  deriving Repr, DecidableEq

/-- An HTTP response as produced by `c.JSON(status, body)`. -/
structure HttpResponse where
  status : Nat
  body : BaseResponse
  deriving Repr, DecidableEq

/-! ## Go `encoding/csv` reader (default options, as used by `gocsv`)

Character-level state machine. Go's reader treats `\r\n` as a line
terminator everywhere (inside quoted fields it becomes `\n`); we normalise
`\r\n` to `\n` first, which agrees with Go on every input. Field parsing:
empty lines are skipped; an unquoted field may not contain `"`; a quoted
field ends at an unescaped `"` which must be followed by a separator,
a newline or end of input; `""` inside a quoted field is a literal quote.
Go checks the per-record field count against the first record as records
are read; we run the same check as a pass after parsing. Both accept and
reject exactly the same inputs, differing only in which parse error is
reported when an input has two different defects. Error strings are the
base messages of Go's `csv.ErrBareQuote`, `csv.ErrQuote` and
`csv.ErrFieldCount` (positions omitted). -/

/-- Replace each `\r\n` pair by `\n`, left to right. -/
def normalizeCRLF : List Char → List Char
  | [] => []
  | '\r' :: '\n' :: rest => '\n' :: normalizeCRLF rest
  | c :: rest => c :: normalizeCRLF rest

/-- Parsing mode of the CSV machine. -/
inductive CsvMode where
  | recordStart   -- no field of the current record has started
  | fieldStart    -- just consumed a separator; next field begins here
  | inBare        -- inside an unquoted field
  | inQuoted      -- inside a quoted field
  | afterQuote    -- inside a quoted field, just saw a `"`
  deriving Repr, DecidableEq

/-- Machine state: finished records and fields are kept reversed;
`cur` is the current field, reversed. -/
structure CsvState where
  recs : List (List String)
  fields : List String
  cur : List Char
  mode : CsvMode

def csvInit : CsvState := ⟨[], [], [], .recordStart⟩

def pushField (st : CsvState) : List String :=
  (String.mk st.cur.reverse) :: st.fields

def endRecord (st : CsvState) : List (List String) :=
  (pushField st).reverse :: st.recs

/-- One character of Go's record reader. -/
def csvStep (acc : Except String CsvState) (c : Char) : Except String CsvState :=
  match acc with
  | .error e => .error e
  | .ok st =>
    match st.mode with
    | .recordStart =>
      if c = '\n' then .ok st                   -- empty line: skipped
      else if c = ',' then .ok ⟨st.recs, pushField st, [], .fieldStart⟩
      else if c = '"' then .ok ⟨st.recs, st.fields, [], .inQuoted⟩
      else .ok ⟨st.recs, st.fields, [c], .inBare⟩
    | .fieldStart =>
      if c = '\n' then .ok ⟨endRecord st, [], [], .recordStart⟩
      else if c = ',' then .ok ⟨st.recs, pushField st, [], .fieldStart⟩
      else if c = '"' then .ok ⟨st.recs, st.fields, [], .inQuoted⟩
      else .ok ⟨st.recs, st.fields, [c], .inBare⟩
    | .inBare =>
      if c = '\n' then .ok ⟨endRecord st, [], [], .recordStart⟩
      else if c = ',' then .ok ⟨st.recs, pushField st, [], .fieldStart⟩
      else if c = '"' then .error "bare \" in non-quoted-field"
      else .ok ⟨st.recs, st.fields, c :: st.cur, st.mode⟩
    | .inQuoted =>
      if c = '"' then .ok ⟨st.recs, st.fields, st.cur, .afterQuote⟩
      else .ok ⟨st.recs, st.fields, c :: st.cur, st.mode⟩
    | .afterQuote =>
      if c = '"' then .ok ⟨st.recs, st.fields, '"' :: st.cur, .inQuoted⟩
      else if c = ',' then .ok ⟨st.recs, pushField st, [], .fieldStart⟩
      else if c = '\n' then .ok ⟨endRecord st, [], [], .recordStart⟩
      else .error "extraneous or missing \" in quoted-field"

/-- End of input: flush the pending field/record; an open quoted field is
an error. -/
def csvFinish (acc : Except String CsvState) : Except String (List (List String)) :=
  match acc with
  | .error e => .error e
  | .ok st =>
    match st.mode with
    | .recordStart => .ok st.recs.reverse
    | .fieldStart => .ok (endRecord st).reverse
    | .inBare => .ok (endRecord st).reverse
    | .inQuoted => .error "extraneous or missing \" in quoted-field"
    | .afterQuote => .ok (endRecord st).reverse

/-- Go's reader fixes the expected field count from the first record and
rejects any later record with a different count. -/
def checkFieldCounts (recs : List (List String)) :
    Except String (List (List String)) :=
  match recs with
  | [] => .ok []
  | first :: rest =>
    if rest.all (fun r => r.length = first.length) then .ok (first :: rest)
    else .error "wrong number of fields"

/-- Go `csv.Reader.ReadAll` with default options: all records or an error,
never a partial result. -/
def readAll (s : String) : Except String (List (List String)) :=
  (csvFinish ((normalizeCRLF s.data).foldl csvStep (.ok csvInit))).bind
    checkFieldCounts

/-! ## `gocsv.Unmarshal` into `[]model.TodoCSV` -/

/-- Build one `TodoCSV` from a data row under a header row: each struct
field takes the value of the first column whose header equals its csv tag,
or the zero value `""` when no column matches. -/
def todoFromRow (header row : List String) : TodoCSV :=
  { todoName := ((header.zip row).lookup "todo_name").getD ""
    note := ((header.zip row).lookup "note").getD "" }

/-- Embeds `gocsv.Unmarshal`: read all records up front (an error yields zero
records), reject a fully empty input, treat the first record as the header
and map every remaining record to a `TodoCSV`. -/
def gocsvUnmarshal (s : String) : Except String (List TodoCSV) :=
  match readAll s with
  | .error e => .error e
  | .ok [] => .error "empty csv file given"
  | .ok (header :: rows) => .ok (rows.map (todoFromRow header))

/-! ## Relational store (table `events`, primary key `id`)

`EventRepo.CreateEvent` issues one single-row `INSERT` inside its own
transaction (begin/insert/commit, rollback on error); `ListEvents` issues
one `SELECT * FROM "events"` with no filter, limit or order clause.
The store is the multiset of rows, kept as a list in scan order. -/

abbrev Store := List Event

/-- A single-row insert: the primary key `events_pk` on `id` rejects a
duplicate identifier; the failed transaction rolls back, leaving the
store as it was. -/
def storeInsert (s : Store) (e : Event) : Except String Store :=
  if s.any (fun x => x.id = e.id) then
    .error "duplicate key value violates unique constraint \"events_pk\""
  else .ok (s ++ [e])

/-- The query `SELECT * FROM "events"`: every row, in scan order, unfiltered. -/
def storeSelectAll (s : Store) : List Event := s

/-! ## HTTP handlers (package apis) -/

/-- Handler `listEvents`: the repository result is either the row list or an
error; errors become a 500 with the error text, success a 200 envelope
with message `success` and the rows as data. -/
def listEvents (r : Except String (List Event)) : HttpResponse :=
  match r with
  | .error e => ⟨500, ⟨.noData, e⟩⟩
  | .ok events => ⟨200, ⟨.events events, "success"⟩⟩

/-- The `csvfile` part of the multipart form, as the handler sees it:
`c.FormFile("csvfile")` may fail (field absent), then `csvfile.Open()`
may fail; otherwise the handler reads the file's byte content. -/
inductive FileField where
  | missing (errMsg : String)     -- c.FormFile("csvfile") returned an error
  | unreadable (errMsg : String)  -- csvfile.Open() returned an error
  | content (data : String)       -- the uploaded bytes
  deriving Repr, DecidableEq

/-- The handler's nondeterministic environment, fixed per request:
the result of `uuid.NewV7()` (already rendered by `.String()`), the two
successive `time.Now()` readings, and the repository's verdict on an
attempted insert (`none` = success, `some e` = error text). -/
structure CreateEnv where
  uuid : Except String String
  now1 : Nat
  now2 : Nat
  insert : Event → Option String

/-- What a run of `createEvent` produced: the HTTP response and the list
of events passed to `eventRepo.CreateEvent`, in call order. -/
structure CreateOutcome where
  resp : HttpResponse
  inserted : List Event
  deriving Repr

/-- Handler `createEvent` (apis package), step for step:
form value `name`; `FormFile`/`Open` errors → 400 with the error text;
`gocsv.Unmarshal` error → 500 with the parser's text; the decoded todos
are only dumped (`godump.Dump`) and not used further; `uuid.NewV7` error
→ 500; otherwise build the `Event` (id, name via `EventCreateRequest`,
status `Created`, the two `time.Now()` readings, no delete date), insert
it, 500 with the repository's text on failure, else 200 `success` with
the event as data. -/
def createEvent (env : CreateEnv) (name : String) (file : FileField) :
    CreateOutcome :=
  match file with
  | .missing e => ⟨⟨400, ⟨.noData, e⟩⟩, []⟩
  | .unreadable e => ⟨⟨400, ⟨.noData, e⟩⟩, []⟩
  | .content data =>
    match gocsvUnmarshal data with
    | .error e => ⟨⟨500, ⟨.noData, e⟩⟩, []⟩
    | .ok _todos =>
      match env.uuid with
      | .error e => ⟨⟨500, ⟨.noData, e⟩⟩, []⟩
      | .ok id =>
        let event : Event :=
          ⟨id, name, Created, env.now1, env.now2, none⟩
        match env.insert event with
        | some e => ⟨⟨500, ⟨.noData, e⟩⟩, [event]⟩
        | none => ⟨⟨200, ⟨.event event, "success"⟩⟩, [event]⟩

/-- Handler `createEvent` run against the relational store: the repository insert
is `storeInsert`; a failed insert rolls back, leaving the store unchanged.
Returns the response together with the store after the request. -/
def createEventStore (uuid : Except String String) (now1 now2 : Nat)
    (name : String) (file : FileField) (s : Store) :
    HttpResponse × Store :=
  match file with
  | .missing e => (⟨400, ⟨.noData, e⟩⟩, s)
  | .unreadable e => (⟨400, ⟨.noData, e⟩⟩, s)
  | .content data =>
    match gocsvUnmarshal data with
    | .error e => (⟨500, ⟨.noData, e⟩⟩, s)
    | .ok _todos =>
      match uuid with
      | .error e => (⟨500, ⟨.noData, e⟩⟩, s)
      | .ok id =>
        let event : Event := ⟨id, name, Created, now1, now2, none⟩
        match storeInsert s event with
        | .error e => (⟨500, ⟨.noData, e⟩⟩, s)
        | .ok s2 => (⟨200, ⟨.event event, "success"⟩⟩, s2)

/-- Handler `healthCheck` (apis package): `a.db.DB()` may fail, then `db.Ping()`
may fail; either failure is a 500 with the error text, success is a 200
with message `healthy`. Each oracle is consulted exactly once per request
(no retry). -/
def healthCheck (dbResult pingResult : Except String Unit) : HttpResponse :=
  match dbResult with
  | .error e => ⟨500, ⟨.noData, e⟩⟩
  | .ok _ =>
    match pingResult with
    | .error e => ⟨500, ⟨.noData, e⟩⟩
    | .ok _ => ⟨200, ⟨.noData, "healthy"⟩⟩

/-! ## The service's store operations

`IEventRepo` exposes exactly two operations, and the handlers call no
others: `ListEvents` (a read) and `CreateEvent` (a single-row insert).
A request's effect on the store is therefore one of these. -/

inductive StoreOp where
  | listAll
  | insertOne (e : Event)

/-- Effect of one operation on the store: a read leaves it unchanged; an
insert appends the row on success and (transaction rollback) leaves the
store unchanged on failure. -/
def applyOp (s : Store) (op : StoreOp) : Store :=
  match op with
  | .listAll => s
  | .insertOne e =>
    match storeInsert s e with
    | .ok s2 => s2
    | .error _ => s

def applyOps (s : Store) (ops : List StoreOp) : Store :=
  ops.foldl applyOp s

/-! ## Helper lemmas -/

lemma todoFromRow_pair (a b : String) :
    todoFromRow ["todo_name", "note"] [a, b] = ⟨a, b⟩ := rfl

/-- A successful `readAll` forces every later record to have the length of
the first record (Go's field-count check). -/
lemma readAll_uniform_length (content : String) (first : List String)
    (rows : List (List String))
    (h : readAll content = .ok (first :: rows)) :
    ∀ r ∈ rows, r.length = first.length := by
  unfold readAll at h
  cases hraw :
      csvFinish ((normalizeCRLF content.data).foldl csvStep (.ok csvInit)) with
  | error e => rw [hraw] at h; simp [Except.bind] at h
  | ok recs =>
    rw [hraw] at h
    simp only [Except.bind] at h
    match recs with
    | [] => simp [checkFieldCounts] at h
    | f :: rest =>
      by_cases hall : rest.all (fun r => r.length = f.length) = true
      · simp [checkFieldCounts, hall] at h
        obtain ⟨h1, h2⟩ := h
        subst h1; subst h2
        intro r hr
        have := List.all_eq_true.mp hall r hr
        simpa using this
      · simp [checkFieldCounts, hall] at h

lemma lookup_zip_eq_none (x : String) (hdr row : List String)
    (hx : x ∉ hdr) : (hdr.zip row).lookup x = none := by
  induction hdr generalizing row with
  | nil => simp
  | cons hh ht ih =>
    cases row with
    | nil => simp
    | cons rh rt =>
      have hne : (x == hh) = false := by
        simp only [beq_eq_false_iff_ne, ne_eq]
        intro hxh
        exact hx (hxh ▸ List.mem_cons_self hh ht)
      simp only [List.zip_cons_cons, List.lookup, hne]
      exact ih rt (fun hm => hx (List.mem_cons_of_mem hh hm))

lemma todoFromRow_unmatched (hdr row : List String)
    (h1 : "todo_name" ∉ hdr) (h2 : "note" ∉ hdr) :
    todoFromRow hdr row = ⟨"", ""⟩ := by
  simp [todoFromRow, lookup_zip_eq_none _ _ _ h1, lookup_zip_eq_none _ _ _ h2]

lemma mem_applyOp (s : Store) (op : StoreOp) (e : Event) (he : e ∈ s) :
    e ∈ applyOp s op := by
  cases op with
  | listAll => exact he
  | insertOne x =>
    by_cases hx : (s.any (fun y => y.id = x.id)) = true
    · simpa [applyOp, storeInsert, hx] using he
    · simp only [applyOp, storeInsert, hx]
      simp only [Bool.false_eq_true] at hx
      simp [hx, List.mem_append, he]

lemma nodup_applyOp (s : Store) (op : StoreOp)
    (h : (s.map Event.id).Nodup) : ((applyOp s op).map Event.id).Nodup := by
  cases op with
  | listAll => exact h
  | insertOne x =>
    by_cases hx : (s.any (fun y => y.id = x.id)) = true
    · simpa [applyOp, storeInsert, hx] using h
    · have hnot : x.id ∉ s.map Event.id := by
        simp only [List.any_eq_true, decide_eq_true_eq] at hx
        push_neg at hx
        simp only [List.mem_map, not_exists, not_and]
        intro y hy hid
        exact hx y hy hid
      simp only [applyOp, storeInsert, hx]
      simp [List.nodup_append, h, List.disjoint_right]
      intro a ha
      exact fun hEq => hnot (hEq ▸ (List.mem_map_of_mem Event.id ha))

lemma mem_applyOps (ops : List StoreOp) (s : Store) (e : Event)
    (he : e ∈ s) : e ∈ applyOps s ops := by
  induction ops generalizing s with
  | nil => exact he
  | cons op rest ih => exact ih (applyOp s op) (mem_applyOp s op e he)

lemma nodup_applyOps (ops : List StoreOp) (s : Store)
    (h : (s.map Event.id).Nodup) : ((applyOps s ops).map Event.id).Nodup := by
  induction ops generalizing s with
  | nil => exact h
  | cons op rest ih => exact ih (applyOp s op) (nodup_applyOp s op h)

/-! ## Claims -/

/-- C1: when the file field is present and readable and its content decodes
as CSV without error, `createEvent` builds an `Event` whose name is the
submitted `name` field, whose status is `draft`, whose create/update dates
are the current time readings and whose id is the freshly generated
identifier; exactly that event is handed to the repository insert, and on
insert success the response is 200 with message `success` and the created
event as data. -/
theorem createEvent_success_contract (env : CreateEnv) (name content : String)
    (todos : List TodoCSV) (id : String)
    (hdec : gocsvUnmarshal content = .ok todos)
    (hid : env.uuid = .ok id)
    (hins : env.insert ⟨id, name, Created, env.now1, env.now2, none⟩ = none) :
    createEvent env name (.content content) =
      ⟨⟨200, ⟨.event ⟨id, name, Created, env.now1, env.now2, none⟩, "success"⟩⟩,
       [⟨id, name, Created, env.now1, env.now2, none⟩]⟩ := by
  simp [createEvent, hdec, hid, hins]

/-- Closed instance of C1 on the repository's own valid-CSV fixture. -/
theorem createEvent_success_contract_witness :
    createEvent ⟨.ok "0190-e5a1", 7, 7, fun _ => none⟩ "Test Event"
      (.content "todo_name,note\nBuy groceries,Get milk and bread\nCall dentist,Schedule appointment") =
      ⟨⟨200, ⟨.event ⟨"0190-e5a1", "Test Event", Created, 7, 7, none⟩, "success"⟩⟩,
       [⟨"0190-e5a1", "Test Event", Created, 7, 7, none⟩]⟩ :=
  createEvent_success_contract ⟨.ok "0190-e5a1", 7, 7, fun _ => none⟩
    "Test Event" _
    [⟨"Buy groceries", "Get milk and bread"⟩, ⟨"Call dentist", "Schedule appointment"⟩]
    "0190-e5a1" rfl rfl rfl

/-- C2: when the uploaded content does not decode as CSV (the decoder
returns an error and hence zero records), `createEvent` answers 500 — not
400 — with the parser's error text as the message, and aborts: no event is
passed to the repository insert. -/
theorem createEvent_csv_error_aborts (env : CreateEnv) (name content e : String)
    (h : gocsvUnmarshal content = .error e) :
    createEvent env name (.content content) = ⟨⟨500, ⟨.noData, e⟩⟩, []⟩ := by
  simp [createEvent, h]

/-- Closed instance of C2 on the unterminated-quote fixture of
`TestTodoCSV_InvalidCSV`. -/
theorem createEvent_csv_error_aborts_witness :
    createEvent ⟨.ok "0190-e5a1", 7, 7, fun _ => none⟩ "Test Event"
      (.content "todo_name,note\n\"Unclosed quote,This should fail") =
      ⟨⟨500, ⟨.noData, "extraneous or missing \" in quoted-field"⟩⟩, []⟩ :=
  createEvent_csv_error_aborts ⟨.ok "0190-e5a1", 7, 7, fun _ => none⟩
    "Test Event" _ _ rfl

/-- C3: when the store insert fails (for example on a duplicate
identifier), the response is 500 with the store's error text, the store is
left exactly as it was (the single-statement transaction rolls back), and a
subsequent select-all shows no second row with that identifier. -/
theorem createEvent_store_failure_no_partial_state
    (uuid : Except String String) (now1 now2 : Nat) (name content : String)
    (todos : List TodoCSV) (id msg : String) (s : Store)
    (hdec : gocsvUnmarshal content = .ok todos)
    (hid : uuid = .ok id)
    (hfail : storeInsert s ⟨id, name, Created, now1, now2, none⟩ = .error msg) :
    createEventStore uuid now1 now2 name (.content content) s =
      (⟨500, ⟨.noData, msg⟩⟩, s) ∧
    ((storeSelectAll s).countP (fun x => x.id = id) ≤ 1 →
      (storeSelectAll
        (createEventStore uuid now1 now2 name (.content content) s).2).countP
          (fun x => x.id = id) ≤ 1) := by
  have h1 : createEventStore uuid now1 now2 name (.content content) s =
      (⟨500, ⟨.noData, msg⟩⟩, s) := by
    simp [createEventStore, hdec, hid, hfail]
  exact ⟨h1, fun hle => by rw [h1]; exact hle⟩

/-- Closed instance of C3: a store already holding the identifier rejects
the insert and is unchanged. -/
theorem createEvent_store_failure_no_partial_state_witness :
    createEventStore (.ok "dup-id") 1 2 "Test Event"
      (.content "todo_name,note\nBuy groceries,Get milk and bread")
      [⟨"dup-id", "Old Event", Created, 0, 0, none⟩] =
      (⟨500, ⟨.noData,
          "duplicate key value violates unique constraint \"events_pk\""⟩⟩,
       [⟨"dup-id", "Old Event", Created, 0, 0, none⟩]) :=
  (createEvent_store_failure_no_partial_state (.ok "dup-id") 1 2 "Test Event"
    "todo_name,note\nBuy groceries,Get milk and bread"
    [⟨"Buy groceries", "Get milk and bread"⟩] "dup-id"
    "duplicate key value violates unique constraint \"events_pk\""
    [⟨"dup-id", "Old Event", Created, 0, 0, none⟩] rfl rfl rfl).1

/-- C4: when the `csvfile` form field is absent (`FormFile` fails) or
cannot be read (`Open` fails), the response is 400 with the raw underlying
error text, and — for every environment, hence independently of the CSV
decoder, the identifier generator and the store — nothing is inserted. -/
theorem createEvent_missing_file_400 (env : CreateEnv) (name e : String) :
    createEvent env name (.missing e) = ⟨⟨400, ⟨.noData, e⟩⟩, []⟩ ∧
    createEvent env name (.unreadable e) = ⟨⟨400, ⟨.noData, e⟩⟩, []⟩ :=
  ⟨rfl, rfl⟩

/-- C5: `listEvents` answers 200 with message `success` and the full,
unfiltered row list of the store when the query succeeds, and 500 with the
underlying error text and no data when it fails. -/
theorem listEvents_contract (s : Store) (e : String) :
    listEvents (.ok (storeSelectAll s)) = ⟨200, ⟨.events s, "success"⟩⟩ ∧
    storeSelectAll s = s ∧
    listEvents (.error e) = ⟨500, ⟨.noData, e⟩⟩ :=
  ⟨rfl, rfl, rfl⟩

/-- C6: `healthCheck` answers 200 with message `healthy` when obtaining
the connection and pinging both succeed, and 500 with the connection/ping
error text when either fails; each oracle is consulted at most once (no
retry is modelled or needed). -/
theorem healthCheck_contract :
    healthCheck (.ok ()) (.ok ()) = ⟨200, ⟨.noData, "healthy"⟩⟩ ∧
    (∀ (e : String) (p : Except String Unit),
      healthCheck (.error e) p = ⟨500, ⟨.noData, e⟩⟩) ∧
    (∀ e : String, healthCheck (.ok ()) (.error e) = ⟨500, ⟨.noData, e⟩⟩) :=
  ⟨rfl, fun _ _ => rfl, fun _ => rfl⟩

/-- C7: for CSV content whose records read back as the header
`todo_name,note` followed by N data rows, decoding succeeds with exactly
N records, the i-th record taking `todo_name` from column 0 and `note`
from column 1 of the i-th row — field contents (quoted commas, embedded
newlines, escaped quotes) exactly as the reader produced them. -/
theorem gocsv_matching_header_decodes_rows (content : String)
    (rows : List (List String))
    (h : readAll content = .ok (["todo_name", "note"] :: rows)) :
    gocsvUnmarshal content =
      .ok (rows.map (fun r => ⟨r.headD "", r.tail.headD ""⟩)) ∧
    (rows.map (fun r : List String =>
      (⟨r.headD "", r.tail.headD ""⟩ : TodoCSV))).length = rows.length := by
  have hlen := readAll_uniform_length content _ rows h
  have hmap : rows.map (todoFromRow ["todo_name", "note"]) =
      rows.map (fun r => ⟨r.headD "", r.tail.headD ""⟩) := by
    refine List.map_congr_left ?_
    intro r hr
    obtain ⟨a, b, rfl⟩ := List.length_eq_two.mp (hlen r hr)
    exact todoFromRow_pair a b
  refine ⟨?_, by simp⟩
  simp only [gocsvUnmarshal, h]
  rw [hmap]

set_option maxRecDepth 8192 in
/-- Closed instance of C7 on the `TestTodoCSV_QuotedFields` fixture:
quoted commas, escaped quotes and embedded newlines are preserved
verbatim. -/
theorem gocsv_matching_header_decodes_rows_witness :
    gocsvUnmarshal "todo_name,note\n\"Buy groceries\",\"Milk, bread, and eggs\"\n\"Call \"\"John\"\" Smith\",\"Important meeting\"\n\"Multi-line\nnote\",\"This spans\nmultiple lines\"" =
      .ok [⟨"Buy groceries", "Milk, bread, and eggs"⟩,
           ⟨"Call \"John\" Smith", "Important meeting"⟩,
           ⟨"Multi-line\nnote", "This spans\nmultiple lines"⟩] :=
  (gocsv_matching_header_decodes_rows
    "todo_name,note\n\"Buy groceries\",\"Milk, bread, and eggs\"\n\"Call \"\"John\"\" Smith\",\"Important meeting\"\n\"Multi-line\nnote\",\"This spans\nmultiple lines\""
    [["Buy groceries", "Milk, bread, and eggs"],
     ["Call \"John\" Smith", "Important meeting"],
     ["Multi-line\nnote", "This spans\nmultiple lines"]] rfl).1

/-- C8: for well-formed CSV whose header row matches neither `todo_name`
nor `note`, decoding succeeds with one all-empty record per data row, and
creation proceeds exactly as for a matching header: the event is inserted
and the response is 200 `success` with the event as data. -/
theorem gocsv_wrong_header_empty_records (content : String)
    (hdr : List String) (rows : List (List String))
    (env : CreateEnv) (name id : String)
    (h : readAll content = .ok (hdr :: rows))
    (h1 : "todo_name" ∉ hdr) (h2 : "note" ∉ hdr)
    (hid : env.uuid = .ok id)
    (hins : env.insert ⟨id, name, Created, env.now1, env.now2, none⟩ = none) :
    gocsvUnmarshal content = .ok (rows.map (fun _ => (⟨"", ""⟩ : TodoCSV))) ∧
    createEvent env name (.content content) =
      ⟨⟨200, ⟨.event ⟨id, name, Created, env.now1, env.now2, none⟩, "success"⟩⟩,
       [⟨id, name, Created, env.now1, env.now2, none⟩]⟩ := by
  have hdec : gocsvUnmarshal content =
      .ok (rows.map (fun _ => (⟨"", ""⟩ : TodoCSV))) := by
    simp only [gocsvUnmarshal, h]
    congr 1
    exact List.map_congr_left (fun r _ => todoFromRow_unmatched hdr r h1 h2)
  exact ⟨hdec, createEvent_success_contract env name content _ id hdec hid hins⟩

/-- Closed instance of C8 on the `TestTodoCSV_WrongHeaders` fixture. -/
theorem gocsv_wrong_header_empty_records_witness :
    gocsvUnmarshal "wrong_header,another_wrong\nTask 1,Note 1\nTask 2,Note 2" =
      .ok [⟨"", ""⟩, ⟨"", ""⟩] :=
  (gocsv_wrong_header_empty_records
    "wrong_header,another_wrong\nTask 1,Note 1\nTask 2,Note 2"
    ["wrong_header", "another_wrong"]
    [["Task 1", "Note 1"], ["Task 2", "Note 2"]]
    ⟨.ok "id-1", 3, 4, fun _ => none⟩ "Test Event" "id-1"
    rfl (by decide) (by decide) rfl rfl).1

/-- C9: once a row is in the store, no sequence of service operations
(the repository exposes only select-all and single-row insert) ever
mutates or removes it — the row is still present, bit for bit, after any
operation sequence — and identifier uniqueness is preserved. -/
theorem store_events_immutable_after_creation (s : Store)
    (ops : List StoreOp) (e : Event) (he : e ∈ s) :
    e ∈ applyOps s ops ∧
    ((s.map Event.id).Nodup → ((applyOps s ops).map Event.id).Nodup) :=
  ⟨mem_applyOps ops s e he, fun h => nodup_applyOps ops s h⟩

/-- Closed instance of C9: a stored event survives a later listing and two
insert attempts (one of them a duplicate of its identifier) unchanged. -/
theorem store_events_immutable_after_creation_witness :
    (⟨"a", "First", Created, 0, 0, none⟩ : Event) ∈
      applyOps [⟨"a", "First", Created, 0, 0, none⟩]
        [.listAll, .insertOne ⟨"b", "Second", Created, 1, 1, none⟩,
         .insertOne ⟨"a", "Clone", Created, 2, 2, none⟩] :=
  (store_events_immutable_after_creation
    [⟨"a", "First", Created, 0, 0, none⟩]
    [.listAll, .insertOne ⟨"b", "Second", Created, 1, 1, none⟩,
     .insertOne ⟨"a", "Clone", Created, 2, 2, none⟩]
    ⟨"a", "First", Created, 0, 0, none⟩ (by simp)).1

/-- C10: the decoded rows never influence the outcome: two uploads with
the same name whose contents both decode without error produce, under the
same identifier/timestamp/store environment, the very same outcome — the
same event handed to the insert and the same response body. -/
theorem createEvent_independent_of_csv_rows (env : CreateEnv)
    (name c1 c2 : String) (t1 t2 : List TodoCSV)
    (hc1 : gocsvUnmarshal c1 = .ok t1) (hc2 : gocsvUnmarshal c2 = .ok t2) :
    createEvent env name (.content c1) = createEvent env name (.content c2) := by
  simp [createEvent, hc1, hc2]

/-- Closed instance of C10: two different uploads, identical outcome. -/
theorem createEvent_independent_of_csv_rows_witness :
    createEvent ⟨.ok "id-9", 5, 6, fun _ => none⟩ "Same Name"
        (.content "todo_name,note\nBuy groceries,Get milk and bread") =
      createEvent ⟨.ok "id-9", 5, 6, fun _ => none⟩ "Same Name"
        (.content "wrong_header,another_wrong\nTask 1,Note 1\nTask 2,Note 2") :=
  createEvent_independent_of_csv_rows ⟨.ok "id-9", 5, 6, fun _ => none⟩
    "Same Name" _ _
    [⟨"Buy groceries", "Get milk and bread"⟩] [⟨"", ""⟩, ⟨"", ""⟩] rfl rfl

end CsvImporter
